import Mathlib

/-!
# wifi-plant-node — REST dispatch and connection-supervisor verification

Shallow embedding of the network-state management and REST dispatch
subsystem of the `wifi-plant-node` firmware (`src/RestService.cpp`,
`src/unnamed/part_000` = `Station.cpp`), together with theorems settling
the specification claims about it.

Conventions of the embedding:
* An HTTP request is a method, a URI and an ordered list of
  name/value argument pairs.  `ESP8266WebServer::arg(name)` returns the
  empty string when the argument is absent; `Request.arg` mirrors that.
* Each C handler mutates a global `Service_State_Cache_t`, writes one
  response via `server.send`, and optionally transmits one IR code via
  `led_send_value`.  A handler is embedded as a pure function
  `Request → Cache → HResult` where `HResult` carries the response
  status and body, the cache after the handler returns, and the list of
  IR codes transmitted (in order).
* The source file declares `Service_State_Cache_t` with fields
  `moisture`, `brightness`, `uri`, yet `rs_init` and every handler
  address the fields `raw`, `brightness`, `power`, `function`, `color`,
  `uri`.  The embedding uses the six fields the implementation actually
  reads and writes.
-/

namespace WifiPlantNode

/-- HTTP method, as distinguished by `server.method()` in the source
(`HTTP_GET` versus `HTTP_POST`; the not-found echo prints every
non-GET method as "POST", matching the source's ternary). -/
inductive Method where
  | GET : Method
  | POST : Method
deriving DecidableEq, Repr

/-- An HTTP request as seen by the ESP8266WebServer handler callbacks:
method, request URI, and the parsed argument list (name, value) in
order. -/
structure Request where
  method : Method
  uri : String
  args : List (String × String)
deriving DecidableEq, Repr

/-- `server.arg(name)`: value of the first argument with the given
name, or the empty string when no such argument exists. -/
def Request.arg (req : Request) (key : String) : String :=
  match req.args.find? (fun p => p.1 == key) with
  | some p => p.2
  | none => ""

/-- The service state cache.  The source's `Service_State_Cache_t`
declaration lists fields `moisture`, `brightness`, `uri`, but `rs_init`
and the handlers read and write `raw`, `brightness`, `power`,
`function`, `color`, `uri`; these six fields are the state the
implementation manipulates and the spec describes. -/
structure Cache where
  raw : String
  brightness : String
  power : String
  function : String
  color : String
  uri : String
deriving DecidableEq, Repr

/-- The cache as initialized by `rs_init` (every field set to the
sentinel string "unknown"). -/
def rs_init_cache : Cache :=
  { raw := "unknown", brightness := "unknown", power := "unknown"
  , function := "unknown", color := "unknown", uri := "unknown" }

/-! ## IR command codes

`RestService.cpp` includes `LEDStrip.h`, which is not present under
`src/`; only the uses of its `LED_*` constants and of
`led_send_value` are.  Modelled from the spec: the spec treats
`led_send_value` as an opaque IR sink taking a numeric command code,
and the byte values of the `LED_*` codes are taken from the
raw-command documentation table embedded in `_handle_raw`
(`RestService.cpp` lines 212-237), which lists each code's hex value
next to its name. -/

def LED_BRIGHTNESS_DOWN : Int := 0x04
def LED_BRIGHTNESS_UP : Int := 0x05
def LED_OFF_CMD : Int := 0x06
def LED_ON_CMD : Int := 0x07
def LED_COLOR_GREEN : Int := 0x08
def LED_COLOR_RED : Int := 0x09
def LED_COLOR_BLUE : Int := 0x0A
def LED_COLOR_WHITE : Int := 0x0B
def LED_COLOR_PEA_GREEN : Int := 0x0C
def LED_COLOR_ORANGE : Int := 0x0D
def LED_COLOR_DARK_ORCHID : Int := 0x0E
def LED_FLASH_CMD : Int := 0x0F
def LED_COLOR_CYAN : Int := 0x10
def LED_COLOR_DARK_YELLOW : Int := 0x11
def LED_COLOR_MAGENTA : Int := 0x12
def LED_FADE_CMD : Int := 0x13
def LED_COLOR_LIGHT_BLUE : Int := 0x14
def LED_COLOR_YELLOW : Int := 0x15
def LED_COLOR_PINK : Int := 0x16
def LED_STROBE_CMD : Int := 0x17
def LED_COLOR_SKY_BLUE : Int := 0x18
def LED_COLOR_LIGHT_YELLOW : Int := 0x19
def LED_COLOR_PURPLE : Int := 0x1A
def LED_SMOOTH_CMD : Int := 0x1B

/-! ## Arduino `String::toInt` -/

/-- Value of a list of decimal digit characters, most significant
first (the accumulate loop of `atol`). -/
def digitsVal (cs : List Char) : Int :=
  cs.foldl (fun a c => a * 10 + ((c.toNat : Int) - 48)) 0

/-- Whitespace as recognized by `isspace` in the C locale. -/
def isCSpace (c : Char) : Bool :=
  c = ' ' || c = '\t' || c = '\n' || c.toNat = 11 || c.toNat = 12 || c = '\r'

/-- Arduino `String::toInt`, which calls `atol`: skip leading
whitespace, accept an optional sign, read a maximal run of decimal
digits, ignore the rest of the string; a string with no digit prefix
parses as 0. -/
def arduino_toInt (s : String) : Int :=
  match s.data.dropWhile isCSpace with
  | '-' :: rest => - digitsVal (rest.takeWhile Char.isDigit)
  | '+' :: rest => digitsVal (rest.takeWhile Char.isDigit)
  | cs => digitsVal (cs.takeWhile Char.isDigit)

/-! ## Handler result -/

/-- Observable outcome of running one handler: the HTTP status and
body passed to `server.send`, the service state cache after the
handler returns, and the codes passed to `led_send_value` (in
order). -/
structure HResult where
  status : Nat
  body : String
  cache : Cache
  sends : List Int
deriving DecidableEq, Repr

/-! ## Static response texts

Transcribed verbatim from the string literals in `RestService.cpp`. -/

/-- Body served by `_handle_root` for `/` and `/routes`. -/
def rootText : String :=
  "IR Controlled LED Strip Web Service\n\n" ++
  "Routes:\n" ++
  "\t- / (GET) Arguments: none\n" ++
  "\t- /routes (GET) Arguments: none\n" ++
  "\t- /cached-state (GET) Arguments : none\n" ++
  "\t- /raw (GET) Arguments:[boolean] or none, (POST) Arguments:[byte]\n" ++
  "\t- /brightness (GET) Arguments:[boolean] or none, (POST) Arguments:[string]\n" ++
  "\t- /power (GET) Arguments:[boolean] or none, (POST) Arguments:[string]\n" ++
  "\t- /function (GET) Arguments:[boolean] or none, (POST) Arguments:[string]\n" ++
  "\t- /color (GET) Arguments:[boolean] or none, (POST) Arguments:[string]\n"

/-- Documentation text served by `_handle_raw` on GET with
`documentation=true`. -/
def rawDocText : String :=
  "IR Controlled LED Strip Web Service\n\n" ++
  "Raw command expects POST request with a single arguement. " ++
  "The contents of this argument will be a byte code from " ++
  "table below.\n\n" ++
  "    Hex Value | Name\n" ++
  "    ----------|----------------\n" ++
  "    x04       | Brightness-Down\n" ++
  "    x05       | Brightness-Up\n" ++
  "    x06       | Off\n" ++
  "    x07       | On\n" ++
  "    x08       | ~Green\n" ++
  "    x09       | ~Red\n" ++
  "    x0A       | ~Blue\n" ++
  "    x0B       | ~White\n" ++
  "    x0C       | ~Pea Green\n" ++
  "    x0D       | ~Orange\n" ++
  "    x0E       | ~Dark Orchid\n" ++
  "    x0F       | Flash Function\n" ++
  "    x10       | ~Cyan\n" ++
  "    x11       | ~Dark Yellow\n" ++
  "    x12       | ~Magenta\n" ++
  "    x13       | Fade Function\n" ++
  "    x14       | ~Light Blue\n" ++
  "    x15       | ~Yellow\n" ++
  "    x16       | ~Pink\n" ++
  "    x17       | Strobe Function\n" ++
  "    x18       | ~Sky Blue\n" ++
  "    x19       | ~Light Yellow\n" ++
  "    x1A       | ~Purple\n" ++
  "    x1B       | Smooth Function\n" ++
  "\n" ++
  "Special functions have a unique property depending if one send the" ++
  " command after it is already in the selected mode. The following lists" ++
  " describes this behavior.\n" ++
  "  - Pressing Flash once does same action as smooth\n" ++
  "  - Pressing Flash twice strobes between color transitions of flash 1.\n" ++
  "  - Pressing Strobe once strobes currently displayed color\n" ++
  "  - Pressing Strobe twice smoothly changes brightness of static color.\n" ++
  "  - Pressing fade once fades between all colors\n" ++
  "  - Pressing fade twice fades only an rgb single cycling them.\n" ++
  "  - Pressing smooth once transitions between all colors abruptly.\n" ++
  "  - Pressing smooth twice flashes only an rgb single cycling them.\n" ++
  "\n" ++
  "Brightness adjustment is measured in ticks. To move from brightest" ++
  " to least will take 9 ticks.\n" ++
  "\n" ++
  "Brightness adjustment will act as expected for static colors. However " ++
  "when running a special function the brightness adjustment will alter " ++
  "the transition speed of the current function.\n" ++
  "  - During Flash increases/decreases transition speed (9 ticks)\n" ++
  "  - During Strobe increases/decreases transition speed (9 ticks)\n" ++
  "  - During Fade increases/decreases transition speed (9 ticks)\n" ++
  "  - During Smooth increases/decreases transition speed (9 ticks)\n"

/-- Documentation text served by `_handle_brightness` on GET with
`documentation=true`. -/
def brightnessDocText : String :=
  "IR Controlled LED Strip Web Service\n\n" ++
  "Brightness command expects POST request with a single arguement. " ++
  "The contents of this argument will be a string enumeration from " ++
  "table below.\n\n" ++
  "   String | Behavior\n" ++
  "   -------|----------------------------------\n" ++
  "   up     | Shifts LED brightness up a step  \n" ++
  "   down   | Shifts LED brightness down a step\n" ++
  "\n" ++
  "Brightness adjustment is measured in ticks. To move from brightest" ++
  " to least will take 9 ticks.\n" ++
  "\n" ++
  "Brightness adjustment will act as expected for static colors. However " ++
  "when running a special function the brightness adjustment will alter " ++
  "the transition speed of the current function.\n" ++
  "  - During Flash increases/decreases transition speed (9 ticks)\n" ++
  "  - During Strobe increases/decreases transition speed (9 ticks)\n" ++
  "  - During Fade increases/decreases transition speed (9 ticks)\n" ++
  "  - During Smooth increases/decreases transition speed (9 ticks)\n"

/-- Documentation text served by `_handle_power` on GET with
`documentation=true`. -/
def powerDocText : String :=
  "IR Controlled LED Strip Web Service\n\n" ++
  "Power command expects POST request with a single arguement. " ++
  "The contents of this argument will be a string enumeration from " ++
  "table below.\n\n" ++
  "   String | Behavior\n" ++
  "   -------|-------------------------------------\n" ++
  "   on     | Commands LED controller to ON state \n" ++
  "   off    | Commands LED controller to OFF state\n"

/-- Documentation text served by `_handle_functions` on GET with
`documentation=true`. -/
def functionDocText : String :=
  "IR Controlled LED Strip Web Service\n\n" ++
  "Function command expects POST request with a single arguement. " ++
  "The contents of this argument will be a string enumeration from " ++
  "table below.\n\n" ++
  "   String | Behavior\n" ++
  "   -------|--------------------------------------------\n" ++
  "   flash  | Flash a subset of preselected colors (Note)\n" ++
  "   strobe | Strobe last static color selected (Note)   \n" ++
  "   fade   | Fade last static color selected (Note)     \n" ++
  "   smooth | Smooth last static color selected (Note)   \n" ++
  "\n" ++
  "Special functions have a unique property depending if one send the" ++
  " command after it is already in the selected mode. The following lists" ++
  " describes this behavior.\n" ++
  "  - Pressing Flash once does same action as smooth\n" ++
  "  - Pressing Flash twice strobes between color transitions of flash 1.\n" ++
  "  - Pressing Strobe once strobes currently displayed color\n" ++
  "  - Pressing Strobe twice smoothly changes brightness of static color.\n" ++
  "  - Pressing fade once fades between all colors\n" ++
  "  - Pressing fade twice fades only an rgb single cycling them.\n" ++
  "  - Pressing smooth once transitions between all colors abruptly.\n" ++
  "  - Pressing smooth twice flashes only an rgb single cycling them.\n" ++
  "\n" ++
  "When running a special function the brightness adjustment will alter" ++
  "the transition speed of the current function.\n" ++
  "  - During Flash increases/decreases transition speed (9 ticks)\n" ++
  "  - During Strobe increases/decreases transition speed (9 ticks)\n" ++
  "  - During Fade increases/decreases transition speed (9 ticks)\n" ++
  "  - During Smooth increases/decreases transition speed (9 ticks)\n"

/-- Documentation text served by `_handle_colors` on GET with
`documentation=true`. -/
def colorDocText : String :=
  "IR Controlled LED Strip Web Service\n\n" ++
  "Color command expects POST request with a single arguement. " ++
  "The contents of this argument will be a string enumeration from " ++
  "list below.\n\n" ++
  "   - white\n" ++
  "   - red\n" ++
  "   - orange\n" ++
  "   - dark-yellow\n" ++
  "   - yellow\n" ++
  "   - light-yellow\n" ++
  "   - green\n" ++
  "   - pea-green\n" ++
  "   - cyan\n" ++
  "   - light-blue\n" ++
  "   - sky-blue\n" ++
  "   - blue\n" ++
  "   - dark-orchid\n" ++
  "   - purple\n" ++
  "   - magenta\n" ++
  "   - pink\n"

/-! ## Route handlers

Each handler mirrors the corresponding `_handle_*` function of
`RestService.cpp` branch by branch.  In the source every handler ends
with the common tail `server.send(200, "text/plain", message);
state.uri = server.uri(); if(set){ led_send_value(cmd); state.raw =
cmd; }`; each branch below records the net effect of that tail for the
`message`/`set`/`cmd` values the branch computes. -/

/-- Arduino `String(int)` conversion used by `state.raw = cmd`:
decimal representation. -/
def intString (n : Int) : String := toString n

/-- `_handle_root`, registered for `/` and `/routes`: serves the route
listing and updates the cached URI. -/
def handle_root (req : Request) (st : Cache) : HResult :=
  { status := 200, body := rootText, cache := { st with uri := req.uri }, sends := [] }

/-- `_handle_cached_state`: dumps the cache (reading `uri` before the
handler overwrites it) and updates the cached URI. -/
def handle_cached_state (req : Request) (st : Cache) : HResult :=
  { status := 200
  , body := "IR Controlled LED Strip Web Service\n\n" ++
      "Cached State:\n" ++
      "\traw: " ++ st.raw ++ "\n" ++
      "\tbrightness: " ++ st.brightness ++ "\n" ++
      "\tpower: " ++ st.power ++ "\n" ++
      "\tfunction: " ++ st.function ++ "\n" ++
      "\tcolor: " ++ st.color ++ "\n" ++
      "\turi: " ++ st.uri ++ "\n"
  , cache := { st with uri := req.uri }, sends := [] }

/-- `_handle_raw`: POST parses the `raw` argument with
`String::toInt` and accepts any parse in `[0,256)`; GET serves the
documentation or the cached raw value. -/
def handle_raw (req : Request) (st : Cache) : HResult :=
  if req.method = Method.POST then
    if req.arg "raw" ≠ "" then
      if arduino_toInt (req.arg "raw") ≥ 0 ∧ arduino_toInt (req.arg "raw") < 256 then
        { status := 200, body := "success"
        , cache := { st with uri := req.uri, raw := intString (arduino_toInt (req.arg "raw")) }
        , sends := [arduino_toInt (req.arg "raw")] }
      else
        { status := 200, body := "error: invalid argument type"
        , cache := { st with uri := req.uri }, sends := [] }
    else
      { status := 200, body := "error: argument expected"
      , cache := { st with uri := req.uri }, sends := [] }
  else
    if req.arg "documentation" = "true" then
      { status := 200, body := rawDocText, cache := { st with uri := req.uri }, sends := [] }
    else
      { status := 200, body := "raw: " ++ st.raw
      , cache := { st with uri := req.uri }, sends := [] }

/-- `_handle_brightness`: POST validates the `brightness` argument
against the tokens `up`/`down`; GET serves the documentation or the
cached value. -/
def handle_brightness (req : Request) (st : Cache) : HResult :=
  if req.method = Method.POST then
    if req.arg "brightness" ≠ "" then
      if req.arg "brightness" = "up" then
        { status := 200, body := "success"
        , cache := { st with brightness := req.arg "brightness", uri := req.uri, raw := intString LED_BRIGHTNESS_UP }
        , sends := [LED_BRIGHTNESS_UP] }
      else if req.arg "brightness" = "down" then
        { status := 200, body := "success"
        , cache := { st with brightness := req.arg "brightness", uri := req.uri, raw := intString LED_BRIGHTNESS_DOWN }
        , sends := [LED_BRIGHTNESS_DOWN] }
      else
        { status := 200, body := "error: argument does not match expected"
        , cache := { st with uri := req.uri }, sends := [] }
    else
      { status := 200, body := "error: argument expected"
      , cache := { st with uri := req.uri }, sends := [] }
  else
    if req.arg "documentation" = "true" then
      { status := 200, body := brightnessDocText, cache := { st with uri := req.uri }, sends := [] }
    else
      { status := 200, body := "brightness: " ++ st.brightness
      , cache := { st with uri := req.uri }, sends := [] }

/-- `_handle_power`: POST validates the `power` argument against the
tokens `on`/`off`; GET serves the documentation or the cached value. -/
def handle_power (req : Request) (st : Cache) : HResult :=
  if req.method = Method.POST then
    if req.arg "power" ≠ "" then
      if req.arg "power" = "on" then
        { status := 200, body := "success"
        , cache := { st with power := req.arg "power", uri := req.uri, raw := intString LED_ON_CMD }
        , sends := [LED_ON_CMD] }
      else if req.arg "power" = "off" then
        { status := 200, body := "success"
        , cache := { st with power := req.arg "power", uri := req.uri, raw := intString LED_OFF_CMD }
        , sends := [LED_OFF_CMD] }
      else
        { status := 200, body := "error: argument does not match expected"
        , cache := { st with uri := req.uri }, sends := [] }
    else
      { status := 200, body := "error: argument expected"
      , cache := { st with uri := req.uri }, sends := [] }
  else
    if req.arg "documentation" = "true" then
      { status := 200, body := powerDocText, cache := { st with uri := req.uri }, sends := [] }
    else
      { status := 200, body := "power: " ++ st.power
      , cache := { st with uri := req.uri }, sends := [] }

/-- `_handle_functions`: POST validates the `function` argument
against the tokens `flash`/`strobe`/`fade`/`smooth`; GET serves the
documentation or the cached value. -/
def handle_functions (req : Request) (st : Cache) : HResult :=
  if req.method = Method.POST then
    if req.arg "function" ≠ "" then
      if req.arg "function" = "flash" then
        { status := 200, body := "success"
        , cache := { st with function := req.arg "function", uri := req.uri, raw := intString LED_FLASH_CMD }
        , sends := [LED_FLASH_CMD] }
      else if req.arg "function" = "strobe" then
        { status := 200, body := "success"
        , cache := { st with function := req.arg "function", uri := req.uri, raw := intString LED_STROBE_CMD }
        , sends := [LED_STROBE_CMD] }
      else if req.arg "function" = "fade" then
        { status := 200, body := "success"
        , cache := { st with function := req.arg "function", uri := req.uri, raw := intString LED_FADE_CMD }
        , sends := [LED_FADE_CMD] }
      else if req.arg "function" = "smooth" then
        { status := 200, body := "success"
        , cache := { st with function := req.arg "function", uri := req.uri, raw := intString LED_SMOOTH_CMD }
        , sends := [LED_SMOOTH_CMD] }
      else
        { status := 200, body := "error: argument does not match expected"
        , cache := { st with uri := req.uri }, sends := [] }
    else
      { status := 200, body := "error: argument expected"
      , cache := { st with uri := req.uri }, sends := [] }
  else
    if req.arg "documentation" = "true" then
      { status := 200, body := functionDocText, cache := { st with uri := req.uri }, sends := [] }
    else
      { status := 200, body := "function: " ++ st.function
      , cache := { st with uri := req.uri }, sends := [] }

/-- `_handle_colors`: POST validates the `color` argument against the
16 color tokens; GET serves the documentation or the cached value. -/
def handle_colors (req : Request) (st : Cache) : HResult :=
  if req.method = Method.POST then
    if req.arg "color" ≠ "" then
      if req.arg "color" = "white" then
        { status := 200, body := "success"
        , cache := { st with color := req.arg "color", uri := req.uri, raw := intString LED_COLOR_WHITE }
        , sends := [LED_COLOR_WHITE] }
      else if req.arg "color" = "red" then
        { status := 200, body := "success"
        , cache := { st with color := req.arg "color", uri := req.uri, raw := intString LED_COLOR_RED }
        , sends := [LED_COLOR_RED] }
      else if req.arg "color" = "orange" then
        { status := 200, body := "success"
        , cache := { st with color := req.arg "color", uri := req.uri, raw := intString LED_COLOR_ORANGE }
        , sends := [LED_COLOR_ORANGE] }
      else if req.arg "color" = "dark-yellow" then
        { status := 200, body := "success"
        , cache := { st with color := req.arg "color", uri := req.uri, raw := intString LED_COLOR_DARK_YELLOW }
        , sends := [LED_COLOR_DARK_YELLOW] }
      else if req.arg "color" = "yellow" then
        { status := 200, body := "success"
        , cache := { st with color := req.arg "color", uri := req.uri, raw := intString LED_COLOR_YELLOW }
        , sends := [LED_COLOR_YELLOW] }
      else if req.arg "color" = "light-yellow" then
        { status := 200, body := "success"
        , cache := { st with color := req.arg "color", uri := req.uri, raw := intString LED_COLOR_LIGHT_YELLOW }
        , sends := [LED_COLOR_LIGHT_YELLOW] }
      else if req.arg "color" = "green" then
        { status := 200, body := "success"
        , cache := { st with color := req.arg "color", uri := req.uri, raw := intString LED_COLOR_GREEN }
        , sends := [LED_COLOR_GREEN] }
      else if req.arg "color" = "pea-green" then
        { status := 200, body := "success"
        , cache := { st with color := req.arg "color", uri := req.uri, raw := intString LED_COLOR_PEA_GREEN }
        , sends := [LED_COLOR_PEA_GREEN] }
      else if req.arg "color" = "cyan" then
        { status := 200, body := "success"
        , cache := { st with color := req.arg "color", uri := req.uri, raw := intString LED_COLOR_CYAN }
        , sends := [LED_COLOR_CYAN] }
      else if req.arg "color" = "light-blue" then
        { status := 200, body := "success"
        , cache := { st with color := req.arg "color", uri := req.uri, raw := intString LED_COLOR_LIGHT_BLUE }
        , sends := [LED_COLOR_LIGHT_BLUE] }
      else if req.arg "color" = "sky-blue" then
        { status := 200, body := "success"
        , cache := { st with color := req.arg "color", uri := req.uri, raw := intString LED_COLOR_SKY_BLUE }
        , sends := [LED_COLOR_SKY_BLUE] }
      else if req.arg "color" = "blue" then
        { status := 200, body := "success"
        , cache := { st with color := req.arg "color", uri := req.uri, raw := intString LED_COLOR_BLUE }
        , sends := [LED_COLOR_BLUE] }
      else if req.arg "color" = "dark-orchid" then
        { status := 200, body := "success"
        , cache := { st with color := req.arg "color", uri := req.uri, raw := intString LED_COLOR_DARK_ORCHID }
        , sends := [LED_COLOR_DARK_ORCHID] }
      else if req.arg "color" = "purple" then
        { status := 200, body := "success"
        , cache := { st with color := req.arg "color", uri := req.uri, raw := intString LED_COLOR_PURPLE }
        , sends := [LED_COLOR_PURPLE] }
      else if req.arg "color" = "magenta" then
        { status := 200, body := "success"
        , cache := { st with color := req.arg "color", uri := req.uri, raw := intString LED_COLOR_MAGENTA }
        , sends := [LED_COLOR_MAGENTA] }
      else if req.arg "color" = "pink" then
        { status := 200, body := "success"
        , cache := { st with color := req.arg "color", uri := req.uri, raw := intString LED_COLOR_PINK }
        , sends := [LED_COLOR_PINK] }
      else
        { status := 200, body := "error: argument does not match expected"
        , cache := { st with uri := req.uri }, sends := [] }
    else
      { status := 200, body := "error: argument expected"
      , cache := { st with uri := req.uri }, sends := [] }
  else
    if req.arg "documentation" = "true" then
      { status := 200, body := colorDocText, cache := { st with uri := req.uri }, sends := [] }
    else
      { status := 200, body := "color: " ++ st.color
      , cache := { st with uri := req.uri }, sends := [] }

/-- `_handle_not_found`: serves the 404 diagnostic echo.  Note that,
unlike every other handler, it never assigns `state.uri`. -/
def handle_not_found (req : Request) (st : Cache) : HResult :=
  { status := 404
  , body := "404: Not Found\n\n" ++
      "URI: " ++ req.uri ++
      "\nMethod: " ++ (if req.method = Method.GET then "GET" else "POST") ++
      "\nArguments: " ++ toString req.args.length ++
      "\n" ++
      String.join (req.args.map (fun p => " " ++ p.1 ++ ": " ++ p.2 ++ "\n"))
  , cache := st, sends := [] }

/-! ## Route registration and dispatch

`rs_init` (`RestService.cpp` lines 112-127) resets the cache and then
registers exactly these handlers, in this order:

    server.on("/",              HTTP_GET,   _handle_root);
    server.on("/routes",        HTTP_GET,   _handle_root);
    server.on("/moisture",   _handle_moisture);
    server.on("/brightness", _handle_brightness);
    server.onNotFound(_handle_not_found);

A two-argument `server.on` matches any method; a three-argument one
matches only the given method; an unmatched request goes to the
not-found handler.  `_handle_moisture` is referenced here but defined
nowhere in the repository sources. -/

/-- The dispatch outcomes of the server after `rs_init`. -/
inductive Route where
  | root : Route
  | routes : Route
  | moisture : Route
  | brightness : Route
  | notFound : Route
deriving DecidableEq, Repr

/-- Which registered entry a request matches, scanning the `server.on`
registrations of `rs_init` in order. -/
def routeOf (req : Request) : Route :=
  if req.uri = "/" ∧ req.method = Method.GET then Route.root
  else if req.uri = "/routes" ∧ req.method = Method.GET then Route.routes
  else if req.uri = "/moisture" then Route.moisture
  else if req.uri = "/brightness" then Route.brightness
  else Route.notFound

/-- One request serviced by the server as configured by `rs_init`.
Returns `none` on the `/moisture` route, whose handler
`_handle_moisture` is registered by `rs_init` but absent from the
repository sources; every theorem below that runs the dispatcher
excludes that route by hypothesis. -/
def serve (req : Request) (st : Cache) : Option HResult :=
  match routeOf req with
  | Route.root => some (handle_root req st)
  | Route.routes => some (handle_root req st)
  | Route.moisture => none
  | Route.brightness => some (handle_brightness req st)
  | Route.notFound => some (handle_not_found req st)

/-- Cache evolution under one serviced request (identity on the
`/moisture` route, which theorems exclude by hypothesis). -/
def rs_step (st : Cache) (req : Request) : Cache :=
  match serve req st with
  | some r => r.cache
  | none => st

/-- Cache evolution under a sequence of serviced requests. -/
def rs_run (st : Cache) (reqs : List Request) : Cache :=
  reqs.foldl rs_step st

/-! ## Command categories

The spec's CommandTable: per category, the argument key, the path, and
the token → code mapping, read off the validation chains of the four
command handlers. -/

/-- The four token-validated command categories. -/
inductive Category where
  | brightness : Category
  | power : Category
  | function : Category
  | color : Category
deriving DecidableEq, Repr, Fintype

/-- Argument key expected by the category's route handler. -/
def Category.argKey : Category → String
  | Category.brightness => "brightness"
  | Category.power => "power"
  | Category.function => "function"
  | Category.color => "color"

/-- Path of the category's route. -/
def Category.path : Category → String
  | Category.brightness => "/brightness"
  | Category.power => "/power"
  | Category.function => "/function"
  | Category.color => "/color"

/-- Token → code table of the category, in the order of the handler's
comparison chain. -/
def Category.table : Category → List (String × Int)
  | Category.brightness => [("up", LED_BRIGHTNESS_UP), ("down", LED_BRIGHTNESS_DOWN)]
  | Category.power => [("on", LED_ON_CMD), ("off", LED_OFF_CMD)]
  | Category.function =>
      [("flash", LED_FLASH_CMD), ("strobe", LED_STROBE_CMD),
       ("fade", LED_FADE_CMD), ("smooth", LED_SMOOTH_CMD)]
  | Category.color =>
      [("white", LED_COLOR_WHITE), ("red", LED_COLOR_RED), ("orange", LED_COLOR_ORANGE),
       ("dark-yellow", LED_COLOR_DARK_YELLOW), ("yellow", LED_COLOR_YELLOW),
       ("light-yellow", LED_COLOR_LIGHT_YELLOW), ("green", LED_COLOR_GREEN),
       ("pea-green", LED_COLOR_PEA_GREEN), ("cyan", LED_COLOR_CYAN),
       ("light-blue", LED_COLOR_LIGHT_BLUE), ("sky-blue", LED_COLOR_SKY_BLUE),
       ("blue", LED_COLOR_BLUE), ("dark-orchid", LED_COLOR_DARK_ORCHID),
       ("purple", LED_COLOR_PURPLE), ("magenta", LED_COLOR_MAGENTA),
       ("pink", LED_COLOR_PINK)]

/-- The category's valid tokens. -/
def Category.tokens (c : Category) : List String :=
  (c.table).map Prod.fst

/-- The category's route handler. -/
def Category.run : Category → Request → Cache → HResult
  | Category.brightness => handle_brightness
  | Category.power => handle_power
  | Category.function => handle_functions
  | Category.color => handle_colors

/-- The cache field owned by the category's route. -/
def Category.field : Category → Cache → String
  | Category.brightness => Cache.brightness
  | Category.power => Cache.power
  | Category.function => Cache.function
  | Category.color => Cache.color

/-- A request that one of the five command routes would accept (a POST
whose argument validates): a `/raw` POST whose argument parses into
`[0,256)`, or a POST to a category route carrying a valid token of the
category.  These are exactly the requests after which a handler
transmits an IR code and overwrites a cache field other than `uri`. -/
def ValidCmdPost (req : Request) : Prop :=
  req.method = Method.POST ∧
  ((req.uri = "/raw" ∧ req.arg "raw" ≠ "" ∧
      arduino_toInt (req.arg "raw") ≥ 0 ∧ arduino_toInt (req.arg "raw") < 256) ∨
   (∃ cat : Category, req.uri = cat.path ∧ req.arg cat.argKey ∈ cat.tokens))

instance (req : Request) : Decidable (ValidCmdPost req) := by
  unfold ValidCmdPost
  infer_instance

/-! ## Connection supervisor (`Station.cpp`)

`st_update` polls the link each tick.  The embedding records, per
tick, the sequence of side effects performed on the services, in
order. -/

/-- Side effects `st_update` can perform on the services: `rs_stop`
(via `_stop_services`), the blocking WiFiManager `autoConnect` (via
`_connect`), `rs_init` (via `_start_services`), and `rs_update` (via
`_update_services`, servicing at most one client request). -/
inductive StAction where
  | stopServices : StAction
  | connect : StAction
  | startServices : StAction
  | updateServices : StAction
deriving DecidableEq, Repr

/-- `_connect` return value: `WiFiManager::autoConnect` blocks until a
connection exists, and `_connect` then returns true unconditionally. -/
def st_connect_result : Bool := true

/-- `st_update`, given the polled link status (`WiFi.status() ==
WL_CONNECTED`): on link loss it stops the services, re-runs the
blocking connect, and (on the always-true success result) restarts
them; otherwise it performs one services update. -/
def st_update (wifiConnected : Bool) : List StAction :=
  if wifiConnected then
    [StAction.updateServices]
  else
    StAction.stopServices :: StAction.connect ::
      (if st_connect_result then [StAction.startServices] else [])

/-! ## Helper lemmas about dispatch -/

/-- A request dispatched to the `/moisture` entry has URI `/moisture`. -/
theorem routeOf_moisture_uri {req : Request} (h : routeOf req = Route.moisture) :
    req.uri = "/moisture" := by
  unfold routeOf at h
  split_ifs at h with h1 h2 h3 h4; simp_all

/-- A request dispatched to the `/brightness` entry has URI
`/brightness`. -/
theorem routeOf_brightness_uri {req : Request} (h : routeOf req = Route.brightness) :
    req.uri = "/brightness" := by
  unfold routeOf at h
  split_ifs at h with h1 h2 h3 h4; simp_all

/-- Frame property of one dispatch step: a serviced request that is
not an accepted command POST (and is not on the `/moisture` route,
whose handler is missing from the sources) leaves every cache field
except `uri` unchanged. -/
theorem rs_step_frame (st : Cache) (req : Request) (hm : req.uri ≠ "/moisture")
    (hv : ¬ ValidCmdPost req) :
    (rs_step st req).raw = st.raw ∧ (rs_step st req).brightness = st.brightness ∧
    (rs_step st req).power = st.power ∧ (rs_step st req).function = st.function ∧
    (rs_step st req).color = st.color := by
  cases h : routeOf req with
  | root => unfold rs_step serve; rw [h]; exact ⟨rfl, rfl, rfl, rfl, rfl⟩
  | routes => unfold rs_step serve; rw [h]; exact ⟨rfl, rfl, rfl, rfl, rfl⟩
  | moisture => exact absurd (routeOf_moisture_uri h) hm
  | brightness =>
      have huri := routeOf_brightness_uri h
      have hstep : rs_step st req = (handle_brightness req st).cache := by
        unfold rs_step serve
        rw [h]
      rw [hstep]
      unfold handle_brightness
      split_ifs with hpost hne hup hdown hdoc
      · exact absurd ⟨hpost, Or.inr ⟨Category.brightness, huri, by
          simp [Category.argKey, Category.tokens, Category.table, hup]⟩⟩ hv
      · exact absurd ⟨hpost, Or.inr ⟨Category.brightness, huri, by
          simp [Category.argKey, Category.tokens, Category.table, hdown]⟩⟩ hv
      · exact ⟨rfl, rfl, rfl, rfl, rfl⟩
      · exact ⟨rfl, rfl, rfl, rfl, rfl⟩
      · exact ⟨rfl, rfl, rfl, rfl, rfl⟩
      · exact ⟨rfl, rfl, rfl, rfl, rfl⟩
  | notFound => unfold rs_step serve; rw [h]; exact ⟨rfl, rfl, rfl, rfl, rfl⟩

/-- Frame property of a request sequence: if no request in the
sequence is an accepted command POST (or touches `/moisture`), the
five command fields of the cache are unchanged after servicing the
whole sequence. -/
theorem rs_run_frame (reqs : List Request) (st : Cache)
    (h : ∀ r ∈ reqs, r.uri ≠ "/moisture" ∧ ¬ ValidCmdPost r) :
    (rs_run st reqs).raw = st.raw ∧ (rs_run st reqs).brightness = st.brightness ∧
    (rs_run st reqs).power = st.power ∧ (rs_run st reqs).function = st.function ∧
    (rs_run st reqs).color = st.color := by
  induction reqs generalizing st with
  | nil => exact ⟨rfl, rfl, rfl, rfl, rfl⟩
  | cons r rs ih =>
      have hr := h r (List.mem_cons_self r rs)
      have step := rs_step_frame st r hr.1 hr.2
      have rest := ih (rs_step st r) (fun x hx => h x (List.mem_cons_of_mem r hx))
      have hrun : rs_run st (r :: rs) = rs_run (rs_step st r) rs := rfl
      rw [hrun]
      exact ⟨rest.1.trans step.1, rest.2.1.trans step.2.1, rest.2.2.1.trans step.2.2.1,
        rest.2.2.2.1.trans step.2.2.2.1, rest.2.2.2.2.trans step.2.2.2.2⟩

/-! ## Claim theorems -/

/-- C1: the claim states that for every command route (`/brightness`,
`/power`, `/function`, `/color`) and every valid token, a POST
carrying the token sets the corresponding cache field to the token,
calls the IR sink once with the mapped code, and responds "success".
The handler `_handle_colors` implements exactly that contract, but
`rs_init` never registers `/color` (nor `/power` or `/function`), so
the server as started dispatches such a POST to `_handle_not_found`:
404 diagnostic echo, no cache mutation, no IR transmission.  Shown
at the concrete input POST `/color` with `color=white`. -/
theorem c1_color_post_falls_to_not_found :
    handle_colors ⟨Method.POST, "/color", [("color", "white")]⟩ rs_init_cache =
      { status := 200, body := "success"
      , cache := { raw := "11", brightness := "unknown", power := "unknown"
                 , function := "unknown", color := "white", uri := "/color" }
      , sends := [LED_COLOR_WHITE] } ∧
    serve ⟨Method.POST, "/color", [("color", "white")]⟩ rs_init_cache =
      some { status := 404
           , body := "404: Not Found\n\nURI: /color\nMethod: POST\nArguments: 1\n color: white\n"
           , cache := rs_init_cache, sends := [] } :=
  ⟨rfl, rfl⟩

/-- C2: the claim states that a POST to a command route whose argument
is present but not in the category table yields the body
"error: argument does not match expected" with no mutation beyond
`lastUri` and no IR send.  The handler `_handle_power` implements
exactly that, but `rs_init` never registers `/power`, so the server
dispatches the POST to `_handle_not_found`, whose body is the 404
diagnostic echo, not the claimed error text (and `lastUri` is not
updated either).  Shown at POST `/power` with `power=maybe`. -/
theorem c2_power_invalid_token_falls_to_not_found :
    handle_power ⟨Method.POST, "/power", [("power", "maybe")]⟩ rs_init_cache =
      { status := 200, body := "error: argument does not match expected"
      , cache := { rs_init_cache with uri := "/power" }, sends := [] } ∧
    serve ⟨Method.POST, "/power", [("power", "maybe")]⟩ rs_init_cache =
      some { status := 404
           , body := "404: Not Found\n\nURI: /power\nMethod: POST\nArguments: 1\n power: maybe\n"
           , cache := rs_init_cache, sends := [] } :=
  ⟨rfl, rfl⟩

/-- C3: the claim states that a POST to a command route with the
expected argument key absent responds "error: argument expected" with
no mutation beyond `lastUri` and no IR send.  The handler
`_handle_functions` implements exactly that, but `rs_init` never
registers `/function`, so the server dispatches the POST to
`_handle_not_found` with the 404 diagnostic echo instead.  Shown at a
POST to `/function` carrying no arguments. -/
theorem c3_function_missing_arg_falls_to_not_found :
    handle_functions ⟨Method.POST, "/function", []⟩ rs_init_cache =
      { status := 200, body := "error: argument expected"
      , cache := { rs_init_cache with uri := "/function" }, sends := [] } ∧
    serve ⟨Method.POST, "/function", []⟩ rs_init_cache =
      some { status := 404
           , body := "404: Not Found\n\nURI: /function\nMethod: POST\nArguments: 0\n"
           , cache := rs_init_cache, sends := [] } :=
  ⟨rfl, rfl⟩

/-- C4: the claim states that POST `/raw` accepts its argument exactly
when it denotes an integer in `[0,255]` and rejects every non-numeric
string.  `_handle_raw` validates with Arduino `String::toInt`
(`atol`), which parses the non-numeric string "abc" as 0; 0 passes the
range check, so the handler replies "success", transmits code 0 and
caches `raw = "0"` — even the handler's own "error: invalid argument
type" path is not taken.  (Independently, `rs_init` never registers
`/raw`, so the server as started dispatches the POST to the not-found
handler.) -/
theorem c4_raw_accepts_non_numeric :
    arduino_toInt "abc" = 0 ∧
    handle_raw ⟨Method.POST, "/raw", [("raw", "abc")]⟩ rs_init_cache =
      { status := 200, body := "success"
      , cache := { rs_init_cache with raw := "0", uri := "/raw" }, sends := [0] } ∧
    serve ⟨Method.POST, "/raw", [("raw", "abc")]⟩ rs_init_cache =
      some { status := 404
           , body := "404: Not Found\n\nURI: /raw\nMethod: POST\nArguments: 1\n raw: abc\n"
           , cache := rs_init_cache, sends := [] } :=
  ⟨rfl, rfl, rfl⟩

/-- C7: the claim states that `rs_init` registers a handler for every
route of the external interface, so that `/cached-state`, `/raw`,
`/power`, `/function`, `/color` are dispatched to their handlers and
not to the not-found handler.  In the source `rs_init` registers only
`/` (GET), `/routes` (GET), `/moisture` and `/brightness`; every other
documented path is dispatched to the not-found handler. -/
theorem c7_command_routes_not_registered :
    routeOf ⟨Method.GET, "/cached-state", []⟩ = Route.notFound ∧
    routeOf ⟨Method.GET, "/raw", []⟩ = Route.notFound ∧
    routeOf ⟨Method.POST, "/raw", []⟩ = Route.notFound ∧
    routeOf ⟨Method.GET, "/power", []⟩ = Route.notFound ∧
    routeOf ⟨Method.POST, "/power", []⟩ = Route.notFound ∧
    routeOf ⟨Method.GET, "/function", []⟩ = Route.notFound ∧
    routeOf ⟨Method.POST, "/function", []⟩ = Route.notFound ∧
    routeOf ⟨Method.GET, "/color", []⟩ = Route.notFound ∧
    routeOf ⟨Method.POST, "/color", []⟩ = Route.notFound ∧
    routeOf ⟨Method.GET, "/", []⟩ = Route.root ∧
    routeOf ⟨Method.GET, "/routes", []⟩ = Route.routes ∧
    routeOf ⟨Method.GET, "/brightness", []⟩ = Route.brightness ∧
    routeOf ⟨Method.POST, "/brightness", []⟩ = Route.brightness := by
  decide

/-- C8: in the Connected state, when `st_update` observes the link
lost it invokes `rs_stop`, then the blocking `_connect`, then
`rs_init`, in that order, and performs no `rs_update` (no client
request is serviced) during that tick; when the link is intact it
performs exactly one `rs_update`. -/
theorem c8_st_update_order :
    st_update false = [StAction.stopServices, StAction.connect, StAction.startServices] ∧
    st_update true = [StAction.updateServices] ∧
    StAction.updateServices ∉ st_update false := by
  decide

/-- C5 counterexample: the claim states that `lastUri` is updated to
the path just served on every request, including requests to
unregistered paths.  Serving GET `/unknown-path` from the initial
cache dispatches to `_handle_not_found`, which never assigns
`state.uri`: the cache is unchanged and `lastUri` still reads
"unknown", not "/unknown-path". -/
theorem c5_not_found_leaves_lastUri :
    rs_step rs_init_cache ⟨Method.GET, "/unknown-path", []⟩ = rs_init_cache ∧
    rs_init_cache.uri = "unknown" ∧ ("unknown" : String) ≠ "/unknown-path" := by
  refine ⟨rfl, rfl, ?_⟩
  decide

/-- C5 (amended): every request dispatched to a registered route
handler present in the sources (`/`, `/routes`, `/brightness`) updates
`lastUri` to the path just served; a request dispatched to the
not-found handler leaves the whole cache, `lastUri` included,
unchanged. -/
theorem c5_lastUri_registered_only (req : Request) (st : Cache) :
    ((routeOf req = Route.root ∨ routeOf req = Route.routes ∨
        routeOf req = Route.brightness) → (rs_step st req).uri = req.uri) ∧
    (routeOf req = Route.notFound → rs_step st req = st) := by
  constructor
  · intro hr
    rcases hr with h | h | h
    · have hstep : rs_step st req = (handle_root req st).cache := by
        unfold rs_step serve
        rw [h]
      rw [hstep]
      rfl
    · have hstep : rs_step st req = (handle_root req st).cache := by
        unfold rs_step serve
        rw [h]
      rw [hstep]
      rfl
    · have hstep : rs_step st req = (handle_brightness req st).cache := by
        unfold rs_step serve
        rw [h]
      rw [hstep]
      unfold handle_brightness
      split_ifs <;> rfl
  · intro h
    have hstep : rs_step st req = (handle_not_found req st).cache := by
      unfold rs_step serve
      rw [h]
    rw [hstep]
    rfl

/-- C5 witness: serving GET `/` from the initial cache updates
`lastUri` to "/". -/
theorem c5_lastUri_registered_only_witness :
    (rs_step rs_init_cache ⟨Method.GET, "/", []⟩).uri = "/" :=
  (c5_lastUri_registered_only ⟨Method.GET, "/", []⟩ rs_init_cache).1 (Or.inl rfl)

/-- C6 counterexample: the claim states that every cache field,
`lastUri` included, keeps the sentinel "unknown" until its first
successfully validated mutation.  A plain GET `/` — which validates
nothing — already overwrites `lastUri` from "unknown" to "/". -/
theorem c6_lastUri_leaves_sentinel_without_command :
    (rs_step rs_init_cache ⟨Method.GET, "/", []⟩).uri = "/" ∧
    ¬ ValidCmdPost ⟨Method.GET, "/", []⟩ ∧ ("/" : String) ≠ "unknown" := by
  refine ⟨rfl, by decide, by decide⟩

/-- C6 (amended): immediately after `rs_init` every cache field reads
"unknown", and the five command fields (`raw`, `brightness`, `power`,
`function`, `color`) keep "unknown" as long as no serviced request is
a successfully validated command POST (`lastUri`, by contrast, is
overwritten by the first request a registered handler serves; requests
to `/moisture`, whose handler is missing from the sources, are
excluded by hypothesis). -/
theorem c6_sentinel_until_validated_command :
    (rs_init_cache.raw = "unknown" ∧ rs_init_cache.brightness = "unknown" ∧
     rs_init_cache.power = "unknown" ∧ rs_init_cache.function = "unknown" ∧
     rs_init_cache.color = "unknown" ∧ rs_init_cache.uri = "unknown") ∧
    ∀ reqs : List Request,
      (∀ r ∈ reqs, r.uri ≠ "/moisture" ∧ ¬ ValidCmdPost r) →
      (rs_run rs_init_cache reqs).raw = "unknown" ∧
      (rs_run rs_init_cache reqs).brightness = "unknown" ∧
      (rs_run rs_init_cache reqs).power = "unknown" ∧
      (rs_run rs_init_cache reqs).function = "unknown" ∧
      (rs_run rs_init_cache reqs).color = "unknown" := by
  refine ⟨⟨rfl, rfl, rfl, rfl, rfl, rfl⟩, fun reqs h => ?_⟩
  exact rs_run_frame reqs rs_init_cache h

/-- C6 witness: after servicing an invalid-token POST to `/power` and
a GET `/`, the command fields still read "unknown". -/
theorem c6_sentinel_until_validated_command_witness :
    (rs_run rs_init_cache
        [⟨Method.POST, "/power", [("power", "maybe")]⟩, ⟨Method.GET, "/", []⟩]).power =
      "unknown" :=
  ((c6_sentinel_until_validated_command.2
      [⟨Method.POST, "/power", [("power", "maybe")]⟩, ⟨Method.GET, "/", []⟩]
      (by decide)).2.2.1)

/-- Case analysis of `_handle_colors` on a POST with a non-empty
`color` argument: either the argument is a token of the color table
and the handler answers success, caches the token and the code, and
transmits the code once, or it is no token and the handler answers the
mismatch error, touching only `uri`. -/
theorem handle_colors_post_spec (req : Request) (st : Cache)
    (hpost : req.method = Method.POST) (hne : req.arg "color" ≠ "") :
    (∃ p ∈ Category.color.table, req.arg "color" = p.1 ∧
        handle_colors req st =
          { status := 200, body := "success"
          , cache := { st with color := req.arg "color", uri := req.uri, raw := intString p.2 }
          , sends := [p.2] }) ∨
    (req.arg "color" ∉ Category.color.tokens ∧
        handle_colors req st =
          { status := 200, body := "error: argument does not match expected"
          , cache := { st with uri := req.uri }, sends := [] }) := by
  unfold handle_colors
  rw [if_pos hpost, if_pos hne]
  by_cases h1 : req.arg "color" = "white"
  case pos => rw [if_pos h1]; exact Or.inl ⟨("white", LED_COLOR_WHITE), by simp [Category.table], h1, rfl⟩
  rw [if_neg h1]
  by_cases h2 : req.arg "color" = "red"
  case pos => rw [if_pos h2]; exact Or.inl ⟨("red", LED_COLOR_RED), by simp [Category.table], h2, rfl⟩
  rw [if_neg h2]
  by_cases h3 : req.arg "color" = "orange"
  case pos => rw [if_pos h3]; exact Or.inl ⟨("orange", LED_COLOR_ORANGE), by simp [Category.table], h3, rfl⟩
  rw [if_neg h3]
  by_cases h4 : req.arg "color" = "dark-yellow"
  case pos => rw [if_pos h4]; exact Or.inl ⟨("dark-yellow", LED_COLOR_DARK_YELLOW), by simp [Category.table], h4, rfl⟩
  rw [if_neg h4]
  by_cases h5 : req.arg "color" = "yellow"
  case pos => rw [if_pos h5]; exact Or.inl ⟨("yellow", LED_COLOR_YELLOW), by simp [Category.table], h5, rfl⟩
  rw [if_neg h5]
  by_cases h6 : req.arg "color" = "light-yellow"
  case pos => rw [if_pos h6]; exact Or.inl ⟨("light-yellow", LED_COLOR_LIGHT_YELLOW), by simp [Category.table], h6, rfl⟩
  rw [if_neg h6]
  by_cases h7 : req.arg "color" = "green"
  case pos => rw [if_pos h7]; exact Or.inl ⟨("green", LED_COLOR_GREEN), by simp [Category.table], h7, rfl⟩
  rw [if_neg h7]
  by_cases h8 : req.arg "color" = "pea-green"
  case pos => rw [if_pos h8]; exact Or.inl ⟨("pea-green", LED_COLOR_PEA_GREEN), by simp [Category.table], h8, rfl⟩
  rw [if_neg h8]
  by_cases h9 : req.arg "color" = "cyan"
  case pos => rw [if_pos h9]; exact Or.inl ⟨("cyan", LED_COLOR_CYAN), by simp [Category.table], h9, rfl⟩
  rw [if_neg h9]
  by_cases h10 : req.arg "color" = "light-blue"
  case pos => rw [if_pos h10]; exact Or.inl ⟨("light-blue", LED_COLOR_LIGHT_BLUE), by simp [Category.table], h10, rfl⟩
  rw [if_neg h10]
  by_cases h11 : req.arg "color" = "sky-blue"
  case pos => rw [if_pos h11]; exact Or.inl ⟨("sky-blue", LED_COLOR_SKY_BLUE), by simp [Category.table], h11, rfl⟩
  rw [if_neg h11]
  by_cases h12 : req.arg "color" = "blue"
  case pos => rw [if_pos h12]; exact Or.inl ⟨("blue", LED_COLOR_BLUE), by simp [Category.table], h12, rfl⟩
  rw [if_neg h12]
  by_cases h13 : req.arg "color" = "dark-orchid"
  case pos => rw [if_pos h13]; exact Or.inl ⟨("dark-orchid", LED_COLOR_DARK_ORCHID), by simp [Category.table], h13, rfl⟩
  rw [if_neg h13]
  by_cases h14 : req.arg "color" = "purple"
  case pos => rw [if_pos h14]; exact Or.inl ⟨("purple", LED_COLOR_PURPLE), by simp [Category.table], h14, rfl⟩
  rw [if_neg h14]
  by_cases h15 : req.arg "color" = "magenta"
  case pos => rw [if_pos h15]; exact Or.inl ⟨("magenta", LED_COLOR_MAGENTA), by simp [Category.table], h15, rfl⟩
  rw [if_neg h15]
  by_cases h16 : req.arg "color" = "pink"
  case pos => rw [if_pos h16]; exact Or.inl ⟨("pink", LED_COLOR_PINK), by simp [Category.table], h16, rfl⟩
  rw [if_neg h16]
  refine Or.inr ⟨?_, rfl⟩
  simp [Category.tokens, Category.table, h1, h2, h3, h4, h5, h6, h7, h8, h9, h10,
    h11, h12, h13, h14, h15, h16]

set_option maxHeartbeats 2000000 in
/-- C9: every handler of `RestService.cpp` sends HTTP status 200 —
`_handle_not_found` alone sends 404 — and on every validation error
(missing argument, unrecognized token, or the `/raw` invalid-argument
error) the POST handlers send the error body with status 200 and
mutate no cache field other than `uri`, transmitting nothing. -/
theorem c9_error_status_and_frame (req : Request) (st : Cache) :
    ((handle_root req st).status = 200 ∧
     (handle_cached_state req st).status = 200 ∧
     (handle_raw req st).status = 200 ∧
     (handle_brightness req st).status = 200 ∧
     (handle_power req st).status = 200 ∧
     (handle_functions req st).status = 200 ∧
     (handle_colors req st).status = 200 ∧
     (handle_not_found req st).status = 404) ∧
    (req.method = Method.POST →
      (∀ cat : Category, req.arg cat.argKey ∉ cat.tokens →
        cat.run req st =
          { status := 200
          , body := if req.arg cat.argKey = "" then "error: argument expected"
                    else "error: argument does not match expected"
          , cache := { st with uri := req.uri }, sends := [] }) ∧
      (req.arg "raw" = "" →
        handle_raw req st =
          { status := 200, body := "error: argument expected"
          , cache := { st with uri := req.uri }, sends := [] }) ∧
      (req.arg "raw" ≠ "" →
        ¬ (arduino_toInt (req.arg "raw") ≥ 0 ∧ arduino_toInt (req.arg "raw") < 256) →
        handle_raw req st =
          { status := 200, body := "error: invalid argument type"
          , cache := { st with uri := req.uri }, sends := [] })) := by
  refine ⟨⟨rfl, rfl, ?_, ?_, ?_, ?_, ?_, rfl⟩, fun hpost => ⟨fun cat hcat => ?_, fun he => ?_, fun hne hnr => ?_⟩⟩
  · simp only [handle_raw, apply_ite HResult.status, ite_self]
  · simp only [handle_brightness, apply_ite HResult.status, ite_self]
  · simp only [handle_power, apply_ite HResult.status, ite_self]
  · simp only [handle_functions, apply_ite HResult.status, ite_self]
  · simp only [handle_colors, apply_ite HResult.status, ite_self]
  · cases cat with
    | brightness =>
        simp only [Category.run, Category.argKey] at hcat ⊢
        unfold handle_brightness
        by_cases he : req.arg "brightness" = ""
        · rw [if_pos hpost, if_neg (not_not_intro he), if_pos he]
        · rw [if_pos hpost, if_pos he, if_neg he]
          split_ifs <;> simp_all [Category.tokens, Category.table]
    | power =>
        simp only [Category.run, Category.argKey] at hcat ⊢
        unfold handle_power
        by_cases he : req.arg "power" = ""
        · rw [if_pos hpost, if_neg (not_not_intro he), if_pos he]
        · rw [if_pos hpost, if_pos he, if_neg he]
          split_ifs <;> simp_all [Category.tokens, Category.table]
    | function =>
        simp only [Category.run, Category.argKey] at hcat ⊢
        unfold handle_functions
        by_cases he : req.arg "function" = ""
        · rw [if_pos hpost, if_neg (not_not_intro he), if_pos he]
        · rw [if_pos hpost, if_pos he, if_neg he]
          split_ifs <;> simp_all [Category.tokens, Category.table]
    | color =>
        simp only [Category.run, Category.argKey] at hcat ⊢
        by_cases he : req.arg "color" = ""
        · unfold handle_colors
          rw [if_pos hpost, if_neg (not_not_intro he), if_pos he]
        · rcases handle_colors_post_spec req st hpost he with ⟨p, hmem, harg, heq⟩ | ⟨hno, heq⟩
          · exact absurd (by rw [harg]; exact List.mem_map_of_mem Prod.fst hmem) hcat
          · rw [heq, if_neg he]
  · unfold handle_raw
    rw [if_pos hpost, if_neg (not_not_intro he)]
  · unfold handle_raw
    rw [if_pos hpost, if_pos hne, if_neg hnr]

/-- C9 witness: an unrecognized-token POST to the brightness handler
answers status 200 with the error body, mutating only `uri`. -/
theorem c9_error_status_and_frame_witness :
    Category.brightness.run ⟨Method.POST, "/brightness", [("brightness", "sideways")]⟩
        rs_init_cache =
      { status := 200, body := "error: argument does not match expected"
      , cache := { rs_init_cache with uri := "/brightness" }, sends := [] } := by
  have h := ((c9_error_status_and_frame
      ⟨Method.POST, "/brightness", [("brightness", "sideways")]⟩ rs_init_cache).2 rfl).1
      Category.brightness (by decide)
  simpa [Request.arg, Category.argKey] using h

/-- C10: every successful POST handled by one of the four
token-validated command handlers also overwrites the `raw` cache
field with the decimal string of the transmitted code, in addition to
setting the route's own field to the posted token and `uri` to the
served path — so `raw` is not exclusively owned by the `/raw`
route. -/
theorem c10_success_post_overwrites_raw (cat : Category) (req : Request) (st : Cache)
    (hpost : req.method = Method.POST)
    (hs : (cat.run req st).body = "success") :
    ∃ n : Int, (cat.run req st).sends = [n] ∧
      (cat.run req st).cache.raw = intString n ∧
      cat.field ((cat.run req st).cache) = req.arg cat.argKey ∧
      (cat.run req st).cache.uri = req.uri := by
  cases cat with
  | brightness =>
      simp only [Category.run] at hs ⊢
      simp only [Category.field, Category.argKey]
      unfold handle_brightness at hs ⊢
      rw [if_pos hpost] at hs ⊢
      split_ifs at hs ⊢
      all_goals first
        | exact ⟨_, rfl, rfl, rfl, rfl⟩
        | simp at hs
  | power =>
      simp only [Category.run] at hs ⊢
      simp only [Category.field, Category.argKey]
      unfold handle_power at hs ⊢
      rw [if_pos hpost] at hs ⊢
      split_ifs at hs ⊢
      all_goals first
        | exact ⟨_, rfl, rfl, rfl, rfl⟩
        | simp at hs
  | function =>
      simp only [Category.run] at hs ⊢
      simp only [Category.field, Category.argKey]
      unfold handle_functions at hs ⊢
      rw [if_pos hpost] at hs ⊢
      split_ifs at hs ⊢
      all_goals first
        | exact ⟨_, rfl, rfl, rfl, rfl⟩
        | simp at hs
  | color =>
      simp only [Category.run] at hs ⊢
      simp only [Category.field, Category.argKey]
      by_cases hne : req.arg "color" = ""
      · unfold handle_colors at hs
        rw [if_pos hpost, if_neg (not_not_intro hne)] at hs
        simp at hs
      · rcases handle_colors_post_spec req st hpost hne with ⟨p, hmem, harg, heq⟩ | ⟨hno, heq⟩
        · rw [heq]
          exact ⟨p.2, rfl, rfl, rfl, rfl⟩
        · rw [heq] at hs
          simp at hs

/-- C10 witness: the successful POST `/power` with `power=on`
transmits one code and caches it in decimal in the `raw` field. -/
theorem c10_success_post_overwrites_raw_witness :
    ∃ n : Int,
      (Category.power.run ⟨Method.POST, "/power", [("power", "on")]⟩ rs_init_cache).sends =
        [n] ∧
      (Category.power.run ⟨Method.POST, "/power", [("power", "on")]⟩
          rs_init_cache).cache.raw = intString n ∧
      Category.power.field ((Category.power.run ⟨Method.POST, "/power", [("power", "on")]⟩
          rs_init_cache).cache) =
        Request.arg ⟨Method.POST, "/power", [("power", "on")]⟩ "power" ∧
      (Category.power.run ⟨Method.POST, "/power", [("power", "on")]⟩
          rs_init_cache).cache.uri = "/power" :=
  c10_success_post_overwrites_raw Category.power
    ⟨Method.POST, "/power", [("power", "on")]⟩ rs_init_cache rfl rfl

end WifiPlantNode
